import Mathlib

/-!
Shallow embedding of the blink-counting core of `blink_counter.py`
(`count_blinks_in_video`, `calculate_ear_fast`).

Eye-openness (EAR) samples are modelled as exact rationals.  The per-frame
outcome of face detection plus landmark extraction is abstracted to an
`Option ℚ` per decoded frame (`none` = no face found in that frame, `some e`
= the averaged left/right EAR value for the detected face).  The geometry
metric itself is modelled over `ℝ` with `Real.sqrt`, on integer landmark
coordinates as produced by dlib.
-/

namespace BlinkCounter

/-- Source line 37: `EAR_THRESHOLD = 0.32`. -/
def EAR_THRESHOLD : ℚ := 32/100

/-- Source line 38: `CONSECUTIVE_FRAMES = 1`. -/
def CONSECUTIVE_FRAMES : ℕ := 1

/-- Source line 40: `MAX_FRAMES = 450`. -/
def MAX_FRAMES : ℕ := 450

/-- Source line 137: `sudden_drop_threshold = 0.05`. -/
def SUDDEN_DROP_THRESHOLD : ℚ := 5/100

/-- Insert a value into an ascending sorted list, keeping it sorted. -/
def insertSorted (x : ℚ) : List ℚ → List ℚ
  | [] => [x]
  | y :: ys => if x ≤ y then x :: y :: ys else y :: insertSorted x ys

/-- Insertion sort, ascending: the sorting underlying `np.median`. -/
def sortAsc : List ℚ → List ℚ
  | [] => []
  | x :: xs => insertSorted x (sortAsc xs)

/-- `np.median`: middle element of the ascending sorted list for odd length,
mean of the two middle elements for even length. -/
def npMedian (l : List ℚ) : ℚ :=
  let s := sortAsc l
  if l.length % 2 = 1 then s.getD (l.length / 2) 0
  else (s.getD (l.length / 2 - 1) 0 + s.getD (l.length / 2) 0) / 2

/-- `np.mean`: arithmetic mean of a list. -/
def npMean (l : List ℚ) : ℚ := l.sum / (l.length : ℚ)

/-- Python slice `l[-k:]`: the last `k` elements of `l` (all of `l` when
`l` is shorter than `k`). -/
def lastN (k : ℕ) (l : List ℚ) : List ℚ := l.drop (l.length - k)

/-- Rolling state of the decision engine, source lines 43–49. -/
structure EngState where
  blink_count : ℕ
  consecutive_below_threshold : ℕ
  ear_history : List ℚ
  last_ear : ℚ
  blink_cooldown : ℕ

/-- Initial engine state: counters at 0, empty history, `last_ear = 0.3`,
cooldown 0 (source lines 43–49). -/
def initEngState : EngState :=
  { blink_count := 0
    consecutive_below_threshold := 0
    ear_history := []
    last_ear := 3/10
    blink_cooldown := 0 }

/-- Dynamic threshold, source lines 127–133: once the history holds more
than 15 samples, the median of the last 15 samples times 0.80, clamped to
the interval [0.22, 0.35]; otherwise the fixed `EAR_THRESHOLD`. -/
def dynamicThreshold (hist : List ℚ) : ℚ :=
  if hist.length > 15 then
    min (max (npMedian (lastN 15 hist) * (80/100)) (22/100)) (35/100)
  else EAR_THRESHOLD

/-- Relative threshold, source lines 140–144: once the history holds more
than 10 samples, the mean of the last 10 samples times 0.78; otherwise the
dynamic threshold. -/
def relativeThreshold (hist : List ℚ) (dyn : ℚ) : ℚ :=
  if hist.length > 10 then npMean (lastN 10 hist) * (78/100) else dyn

/-- One frame of the decision engine, source lines 122–181, in the source
order: append the sample to the history (line 122), compute the dynamic
threshold (127–133), the sudden-drop signal (136–137) and the relative
threshold (140–144) — all over the history that already includes the
current sample — then decrement the cooldown (147–148), run the three
detection criteria as a first-match-wins chain (154–168), reset the
consecutive-below counter when the sample is at or above both thresholds
(171–172), and on detection increment the count and set the cooldown
to 3 (175–177); finally `last_ear` becomes the current sample (181). -/
def engineStep (s : EngState) (e : ℚ) : EngState :=
  let hist := s.ear_history ++ [e]
  let dyn := dynamicThreshold hist
  let ear_drop := if s.last_ear > 0 then s.last_ear - e else 0
  let rel := relativeThreshold hist dyn
  let cd := if s.blink_cooldown > 0 then s.blink_cooldown - 1 else s.blink_cooldown
  let consec1 :=
    if e < dyn ∧ cd = 0 then s.consecutive_below_threshold + 1
    else s.consecutive_below_threshold
  let detected : Bool :=
    if e < dyn ∧ cd = 0 then
      decide (CONSECUTIVE_FRAMES ≤ s.consecutive_below_threshold + 1)
    else if SUDDEN_DROP_THRESHOLD < ear_drop ∧ cd = 0 then true
    else if e < rel ∧ cd = 0 then true
    else false
  let consec2 := if dyn ≤ e ∧ rel ≤ e then 0 else consec1
  if detected then
    { blink_count := s.blink_count + 1
      consecutive_below_threshold := consec2
      ear_history := hist
      last_ear := e
      blink_cooldown := 3 }
  else
    { blink_count := s.blink_count
      consecutive_below_threshold := consec2
      ear_history := hist
      last_ear := e
      blink_cooldown := cd }

/-- End-of-stream trailing-blink check, source lines 184–186: one more
blink when the consecutive-below counter has reached `CONSECUTIVE_FRAMES`
and the cooldown is idle. -/
def engineFinal (s : EngState) : ℕ :=
  if CONSECUTIVE_FRAMES ≤ s.consecutive_below_threshold ∧ s.blink_cooldown = 0
  then s.blink_count + 1
  else s.blink_count

/-- Cumulative blink count of the engine run on a sequence of openness
samples, including the end-of-stream check. -/
def runEngine (samples : List ℚ) : ℕ :=
  engineFinal (samples.foldl engineStep initEngState)

/-- Modelled from the spec's claimed per-frame order (spec §4.3 steps 1–7):
the same per-frame procedure, except that the current sample is appended
to the history only after the detection criteria are evaluated, so the
dynamic and relative thresholds are computed over the history excluding
the current sample.  This is a comparison definition for the ordering
claim; `engineStep` above is the one translated from the source. -/
def engineStepAppendAfter (s : EngState) (e : ℚ) : EngState :=
  let cd := if s.blink_cooldown > 0 then s.blink_cooldown - 1 else s.blink_cooldown
  let dyn := dynamicThreshold s.ear_history
  let ear_drop := if s.last_ear > 0 then s.last_ear - e else 0
  let rel := relativeThreshold s.ear_history dyn
  let consec1 :=
    if e < dyn ∧ cd = 0 then s.consecutive_below_threshold + 1
    else s.consecutive_below_threshold
  let detected : Bool :=
    if e < dyn ∧ cd = 0 then
      decide (CONSECUTIVE_FRAMES ≤ s.consecutive_below_threshold + 1)
    else if SUDDEN_DROP_THRESHOLD < ear_drop ∧ cd = 0 then true
    else if e < rel ∧ cd = 0 then true
    else false
  let consec2 := if dyn ≤ e ∧ rel ≤ e then 0 else consec1
  if detected then
    { blink_count := s.blink_count + 1
      consecutive_below_threshold := consec2
      ear_history := s.ear_history ++ [e]
      last_ear := e
      blink_cooldown := 3 }
  else
    { blink_count := s.blink_count
      consecutive_below_threshold := consec2
      ear_history := s.ear_history ++ [e]
      last_ear := e
      blink_cooldown := cd }

/-- Engine run under the spec-order (append-after-evaluation) variant. -/
def runEngineAppendAfter (samples : List ℚ) : ℕ :=
  engineFinal (samples.foldl engineStepAppendAfter initEngState)

/-- The per-frame procedure written in the spec's step order (decrement
the cooldown first, then thresholds, criteria, reset, flag, append, update
`prev`), but with the thresholds computed over the history with the
current sample already appended.  Used to state the amended ordering
claim against `engineStep`. -/
def engineStepThresholdsInclude (s : EngState) (e : ℚ) : EngState :=
  let cd := if s.blink_cooldown > 0 then s.blink_cooldown - 1 else s.blink_cooldown
  let dyn := dynamicThreshold (s.ear_history ++ [e])
  let ear_drop := if s.last_ear > 0 then s.last_ear - e else 0
  let rel := relativeThreshold (s.ear_history ++ [e]) dyn
  let consec1 :=
    if e < dyn ∧ cd = 0 then s.consecutive_below_threshold + 1
    else s.consecutive_below_threshold
  let detected : Bool :=
    if e < dyn ∧ cd = 0 then
      decide (CONSECUTIVE_FRAMES ≤ s.consecutive_below_threshold + 1)
    else if SUDDEN_DROP_THRESHOLD < ear_drop ∧ cd = 0 then true
    else if e < rel ∧ cd = 0 then true
    else false
  let consec2 := if dyn ≤ e ∧ rel ≤ e then 0 else consec1
  if detected then
    { blink_count := s.blink_count + 1
      consecutive_below_threshold := consec2
      ear_history := s.ear_history ++ [e]
      last_ear := e
      blink_cooldown := 3 }
  else
    { blink_count := s.blink_count
      consecutive_below_threshold := consec2
      ear_history := s.ear_history ++ [e]
      last_ear := e
      blink_cooldown := cd }

/-- The frame-reading loop, source lines 73–181.  Each decoded frame is
abstracted to an `Option ℚ`: `none` when face detection finds no face in
the frame (lines 99–100), `some e` with the averaged EAR value otherwise.
The loop mirrors the source's read-then-check order: `cap.read()` is
called first, and only then is `frame_count >= MAX_FRAMES` tested, so an
iteration that hits the cap has already read one more frame.  Returns
`(frames read, frame_count, engine state, faces_detected)`. -/
def frameLoop : List (Option ℚ) → ℕ → ℕ → EngState → Bool → ℕ × ℕ × EngState × Bool
  | [], reads, fc, s, fd => (reads, fc, s, fd)
  | f :: rest, reads, fc, s, fd =>
    if fc ≥ MAX_FRAMES then (reads + 1, fc, s, fd)
    else
      match f with
      | none => frameLoop rest (reads + 1) (fc + 1) s fd
      | some e => frameLoop rest (reads + 1) (fc + 1) (engineStep s e) true

/-- Run of the frame loop from the initial counters and engine state. -/
def pipelineRun (frames : List (Option ℚ)) : ℕ × ℕ × EngState × Bool :=
  frameLoop frames 0 0 initEngState false

/-- Number of frames actually read (decoded) from the video stream. -/
def framesRead (frames : List (Option ℚ)) : ℕ := (pipelineRun frames).1

/-- Final value of the source's `frame_count` counter: frames that passed
the cap check and were processed (or skipped for lack of a face). -/
def framesProcessed (frames : List (Option ℚ)) : ℕ := (pipelineRun frames).2.1

/-- Effectful context of one `count_blinks_in_video` call.  `predictor_ok`
models whether `dlib.shape_predictor` loads (source lines 30–34);
`raises` models any exception raised inside the big `try` block (base64
decode failure, I/O error, detector failure — source lines 51, 209–211);
`decode_ok` models `cap.isOpened()` (lines 62–64); `frames` is the decoded
frame sequence with its per-frame face/EAR outcome. -/
structure Env where
  predictor_ok : Bool
  raises : Bool
  decode_ok : Bool
  frames : List (Option ℚ)

/-- Driver `count_blinks_in_video`, source lines 11–211: load the landmark
predictor (return 0 when it is missing), then inside a catch-all block
decode and open the video (return 0 when it cannot be opened; any raised
exception is caught and converted to 0), run the frame loop, apply the
end-of-stream check, and force the result to 0 when no frame of the whole
video produced a face detection (lines 194–196). -/
def count_blinks_in_video (env : Env) : ℕ :=
  if ¬ env.predictor_ok then 0
  else if env.raises then 0
  else if ¬ env.decode_ok then 0
  else
    let r := pipelineRun env.frames
    let final := engineFinal r.2.2.1
    if ¬ r.2.2.2 then 0 else final

/-- Euclidean distance between two integer landmark points
(`dist.euclidean`, source lines 229–233). -/
noncomputable def euclidean (p q : ℤ × ℤ) : ℝ :=
  Real.sqrt (((p.1 - q.1 : ℤ) : ℝ) ^ 2 + ((p.2 - q.2 : ℤ) : ℝ) ^ 2)

open Classical in
/-- Geometry metric `calculate_ear_fast`, source lines 214–241: the six
extracted eye points `p1 … p6` are `points 0 … points 5`; the result is
`(|p2-p6| + |p3-p5|) / (2 |p1-p4|)`, with the fixed fallback 0.3 when the
horizontal distance `|p1-p4|` is zero. -/
noncomputable def calculate_ear_fast (points : Fin 6 → ℤ × ℤ) : ℝ :=
  let A := euclidean (points 1) (points 5)
  let B := euclidean (points 2) (points 4)
  let C := euclidean (points 0) (points 3)
  if C = 0 then 3/10 else (A + B) / (2 * C)

/-- A single engine frame either flags a blink (count up by one, cooldown
set to 3) or leaves the count unchanged and decrements the cooldown
(truncated at 0). -/
theorem engineStep_cases (s : EngState) (e : ℚ) :
    ((engineStep s e).blink_count = s.blink_count + 1 ∧ (engineStep s e).blink_cooldown = 3) ∨
    ((engineStep s e).blink_count = s.blink_count ∧
      (engineStep s e).blink_cooldown = s.blink_cooldown - 1) := by
  simp only [engineStep]
  repeat' split
  all_goals
    first
      | exact Or.inl ⟨rfl, rfl⟩
      | exact Or.inr ⟨rfl, rfl⟩
      | exact Or.inr ⟨rfl, by dsimp only; omega⟩

/-- No blink can be flagged in a frame whose decremented cooldown is still
positive: all three criteria require the cooldown to be zero. -/
theorem engineStep_blocked (s : EngState) (e : ℚ) (h : 1 < s.blink_cooldown) :
    (engineStep s e).blink_count = s.blink_count := by
  have hpos : 0 < s.blink_cooldown := by omega
  have hne : ¬ s.blink_cooldown - 1 = 0 := by omega
  simp [engineStep, hpos, hne]

/-- Exact read and processed counters of the frame loop: starting from
`frame_count = fc ≤ MAX_FRAMES`, the loop reads `min length (MAX_FRAMES + 1 - fc)`
more frames and advances `frame_count` by `min length (MAX_FRAMES - fc)`. -/
theorem frameLoop_counts (fs : List (Option ℚ)) :
    ∀ (reads fc : ℕ) (s : EngState) (fd : Bool), fc ≤ MAX_FRAMES →
      (frameLoop fs reads fc s fd).1 = reads + min fs.length (MAX_FRAMES + 1 - fc) ∧
      (frameLoop fs reads fc s fd).2.1 = fc + min fs.length (MAX_FRAMES - fc) := by
  induction fs with
  | nil => intro reads fc s fd h; simp [frameLoop]
  | cons f rest ih =>
    intro reads fc s fd h
    by_cases hfc : fc ≥ MAX_FRAMES
    · simp only [frameLoop, if_pos hfc, List.length_cons]
      omega
    · cases f with
      | none =>
        have hrec := ih (reads + 1) (fc + 1) s fd (by omega)
        simp only [frameLoop, if_neg hfc, List.length_cons]
        omega
      | some e =>
        have hrec := ih (reads + 1) (fc + 1) (engineStep s e) true (by omega)
        simp only [frameLoop, if_neg hfc, List.length_cons]
        omega

/-- If every frame of the stream yields no face, the `faces_detected` flag
stays `false` through the whole loop. -/
theorem frameLoop_fd_none (fs : List (Option ℚ)) :
    ∀ (reads fc : ℕ) (s : EngState), (∀ f ∈ fs, f = none) →
      (frameLoop fs reads fc s false).2.2.2 = false := by
  induction fs with
  | nil => intro reads fc s _; simp [frameLoop]
  | cons f rest ih =>
    intro reads fc s h
    have hf : f = none := h f (List.mem_cons_self f rest)
    subst hf
    by_cases hfc : fc ≥ MAX_FRAMES
    · simp [frameLoop, hfc]
    · simp only [frameLoop, if_neg hfc]
      exact ih (reads + 1) (fc + 1) s fun g hg => h g (List.mem_cons_of_mem _ hg)

/-- The cooldown bound is preserved by any run of engine frames. -/
theorem foldl_cooldown_le (l : List ℚ) :
    ∀ s : EngState, s.blink_cooldown ≤ 3 →
      (List.foldl engineStep s l).blink_cooldown ≤ 3 := by
  induction l with
  | nil => intro s h; simpa using h
  | cons e rest ih =>
    intro s h
    simp only [List.foldl_cons]
    refine ih _ ?_
    rcases engineStep_cases s e with ⟨_, h2⟩ | ⟨_, h2⟩ <;> omega

/-- The cumulative blink count never decreases along a run of engine
frames. -/
theorem foldl_count_mono (l : List ℚ) :
    ∀ s : EngState, s.blink_count ≤ (List.foldl engineStep s l).blink_count := by
  induction l with
  | nil => intro s; simp
  | cons e rest ih =>
    intro s
    simp only [List.foldl_cons]
    have h1 := ih (engineStep s e)
    rcases engineStep_cases s e with ⟨h2, _⟩ | ⟨h2, _⟩ <;> omega

/-- The Euclidean distance between two integer points vanishes exactly
when the points coincide. -/
theorem euclidean_eq_zero_iff (p q : ℤ × ℤ) : euclidean p q = 0 ↔ p = q := by
  unfold euclidean
  rw [Real.sqrt_eq_zero (by positivity), add_eq_zero_iff_of_nonneg (by positivity) (by positivity),
    sq_eq_zero_iff, sq_eq_zero_iff]
  simp only [Int.cast_eq_zero, sub_eq_zero]
  exact Prod.ext_iff.symm

set_option maxRecDepth 10000 in
/-- C1, counterexample.  The claim states that on the synthetic sequence
20 × 0.30, then one sample 0.15, then back to 0.30 (here 5 trailing
samples), the engine's cumulative blink count is exactly 1.  On the code
it is not: the fixed startup threshold 0.32 exceeds the 0.30 baseline, so
blinks already fire during the warm-up. -/
theorem c1_counterexample :
    runEngine (List.replicate 20 (3/10) ++ 3/20 :: List.replicate 5 (3/10)) ≠ 1 := by
  with_unfolding_all decide

set_option maxRecDepth 10000 in
/-- C1, amended.  On the sequence 20 × 0.30, then 0.15, then 5 × 0.30, the
engine registers exactly 6 blinks: criterion 1 fires at samples 1, 4, 7,
10 and 13 (while fewer than 16 samples are recorded the dynamic threshold
is the fixed 0.32, which is above the 0.30 baseline, and the 3-frame
cooldown gates re-firing), plus one genuine blink at the 0.15 drop. -/
theorem c1_warmup_six_blinks :
    runEngine (List.replicate 20 (3/10) ++ 3/20 :: List.replicate 5 (3/10)) = 6 := by
  with_unfolding_all decide

set_option maxRecDepth 10000 in
/-- C2, counterexample.  The claim states that the thresholds of each
frame are computed over the history excluding the current sample (append
after evaluation).  A run whose 16th sample sits exactly at the
include/exclude boundary separates the code from that reading: on
15 × 0.36 followed by 0.31, the code (which appends before computing the
thresholds) counts 0 blinks, while the append-after engine counts 1. -/
theorem c2_counterexample :
    runEngine (List.replicate 15 (9/25) ++ [31/100]) = 0 ∧
    runEngineAppendAfter (List.replicate 15 (9/25) ++ [31/100]) = 1 := by
  with_unfolding_all decide

set_option maxRecDepth 10000 in
/-- C2, amended.  The current sample is appended to the history before the
detection criteria are evaluated; consequently both adaptive thresholds
are computed over the history including the current sample: the per-frame
step is exactly the spec's step order with the thresholds taken over
`history ++ [e]`. -/
theorem c2_thresholds_include_current (s : EngState) (e : ℚ) :
    engineStep s e = engineStepThresholdsInclude s e := rfl

set_option maxRecDepth 10000 in
/-- C3, counterexample.  The claim states that frames beyond the 450-frame
cap are never read; but the loop reads a frame before testing the cap, so
on a 451-frame video the 451st frame is read (and then discarded). -/
theorem c3_counterexample :
    framesRead (List.replicate 451 (none : Option ℚ)) = 451 ∧
    450 < framesRead (List.replicate 451 (none : Option ℚ)) := by
  have h := (frameLoop_counts (List.replicate 451 (none : Option ℚ)) 0 0 initEngState false
    (by omega)).1
  simp only [framesRead, pipelineRun, List.length_replicate, MAX_FRAMES] at h ⊢
  omega

/-- C3, amended.  The pipeline processes at most `MAX_FRAMES = 450`
frames — exactly the first `min length 450` frames of the stream — and
reads at most one frame beyond the cap: exactly `min length 451` frames
are read, so the 451st frame of a long video is read and discarded and no
later frame is ever read. -/
theorem c3_frame_budget (v : List (Option ℚ)) :
    framesProcessed v = min v.length MAX_FRAMES ∧
    framesRead v = min v.length (MAX_FRAMES + 1) := by
  have h := frameLoop_counts v 0 0 initEngState false (by omega)
  have h1 := h.1
  have h2 := h.2
  simp only [framesRead, framesProcessed, pipelineRun] at h1 h2 ⊢
  omega

/-- C4.  For every 6-point eye input the geometry metric returns
`(|p2-p6| + |p3-p5|) / (2 |p1-p4|)` when the horizontal distance
`|p1-p4|` is nonzero — which happens exactly when the two corner points
differ — and returns exactly 0.3 when it is zero, for any configuration
of the remaining points, raising no error in either case (the function is
total). -/
theorem c4_geometry_metric (points : Fin 6 → ℤ × ℤ) :
    (euclidean (points 0) (points 3) = 0 ↔ points 0 = points 3) ∧
    calculate_ear_fast points =
      if points 0 = points 3 then 3/10
      else (euclidean (points 1) (points 5) + euclidean (points 2) (points 4)) /
        (2 * euclidean (points 0) (points 3)) := by
  refine ⟨euclidean_eq_zero_iff _ _, ?_⟩
  simp only [calculate_ear_fast]
  exact if_congr (euclidean_eq_zero_iff _ _) rfl rfl

/-- C5.  `count_blinks_in_video` is a total function into ℕ (it never
raises and its result is a non-negative integer), and every internal
failure — missing landmark model, any exception raised inside the
processing block, or a video that cannot be opened — yields the result 0. -/
theorem c5_total_nonneg (env : Env) :
    0 ≤ count_blinks_in_video env ∧
    (¬ env.predictor_ok → count_blinks_in_video env = 0) ∧
    (env.raises → count_blinks_in_video env = 0) ∧
    (¬ env.decode_ok → count_blinks_in_video env = 0) := by
  refine ⟨Nat.zero_le _, ?_, ?_, ?_⟩
  · intro h; simp [count_blinks_in_video, h]
  · intro h; simp [count_blinks_in_video, h]
  · intro h; simp [count_blinks_in_video, h]

/-- C5, witness: a call whose predictor is missing, whose processing
raises and whose video cannot be opened returns 0. -/
theorem c5_witness :
    count_blinks_in_video ⟨false, true, false, []⟩ = 0 ∧
    0 ≤ count_blinks_in_video ⟨false, true, false, []⟩ :=
  ⟨(c5_total_nonneg ⟨false, true, false, []⟩).2.1 (by simp),
   (c5_total_nonneg ⟨false, true, false, []⟩).1⟩

set_option maxRecDepth 10000 in
/-- C6.  When a blink is flagged the cooldown is set to 3; no blink can be
flagged in a frame whose cooldown is still positive after the per-frame
decrement (that is, when the incoming cooldown exceeds 1); and on the
synthetic sequence 20 × 0.40 followed by three consecutive drops to 0.15
and three trailing 0.40 samples — three below-threshold drops inside one
3-frame cooldown window — the engine registers exactly 1 blink. -/
theorem c6_cooldown_debounce :
    (∀ (s : EngState) (e : ℚ),
      ((engineStep s e).blink_count = s.blink_count + 1 → (engineStep s e).blink_cooldown = 3) ∧
      (1 < s.blink_cooldown → (engineStep s e).blink_count = s.blink_count)) ∧
    runEngine (List.replicate 20 (2/5) ++ List.replicate 3 (3/20) ++ List.replicate 3 (2/5))
      = 1 := by
  constructor
  · intro s e
    constructor
    · intro h
      rcases engineStep_cases s e with ⟨_, h2⟩ | ⟨h1, _⟩
      · exact h2
      · omega
    · exact engineStep_blocked s e
  · with_unfolding_all decide

/-- C6, witness: with incoming cooldown 2, a deeply closed sample flags no
blink. -/
theorem c6_witness :
    (engineStep ⟨0, 0, [], 3/10, 2⟩ (1/10)).blink_count = 0 :=
  (c6_cooldown_debounce.1 ⟨0, 0, [], 3/10, 2⟩ (1/10)).2 (by decide)

/-- C7.  If no frame of the whole video produces a face detection the
driver returns 0 regardless of any other computed state, and a frame with
zero detected faces is skipped entirely — the engine state, including the
history, is untouched — while still consuming one unit of the frame
budget (`frame_count` increments). -/
theorem c7_no_face_frames :
    (∀ env : Env, (∀ f ∈ env.frames, f = none) → count_blinks_in_video env = 0) ∧
    (∀ (rest : List (Option ℚ)) (reads fc : ℕ) (s : EngState) (fd : Bool),
      fc < MAX_FRAMES →
      frameLoop (none :: rest) reads fc s fd = frameLoop rest (reads + 1) (fc + 1) s fd) := by
  constructor
  · intro env h
    simp only [count_blinks_in_video]
    split
    · rfl
    · split
      · rfl
      · split
        · rfl
        · have hfd := frameLoop_fd_none env.frames 0 0 initEngState h
          simp [pipelineRun, hfd]
  · intro rest reads fc s fd h
    have hn : ¬ fc ≥ MAX_FRAMES := by omega
    simp [frameLoop, hn]

/-- C7, witness: a two-frame video with no face in either frame yields 0. -/
theorem c7_witness :
    count_blinks_in_video ⟨true, false, true, [none, none]⟩ = 0 :=
  c7_no_face_frames.1 ⟨true, false, true, [none, none]⟩ (by simp)

/-- C8.  At end of stream, if the consecutive-below counter has reached
the required run length (1) and the cooldown is 0, the engine adds
exactly one trailing blink; in every other case the end-of-stream check
leaves the count unchanged. -/
theorem c8_trailing_blink (s : EngState) :
    (CONSECUTIVE_FRAMES ≤ s.consecutive_below_threshold → s.blink_cooldown = 0 →
      engineFinal s = s.blink_count + 1) ∧
    (¬ (CONSECUTIVE_FRAMES ≤ s.consecutive_below_threshold ∧ s.blink_cooldown = 0) →
      engineFinal s = s.blink_count) := by
  constructor
  · intro h1 h2
    simp [engineFinal, h1, h2]
  · intro h
    simp only [engineFinal, if_neg h]

/-- C8, witness: a final state with the consecutive-below counter at 1 and
an idle cooldown gains one trailing blink. -/
theorem c8_witness :
    engineFinal ⟨0, 1, [], 3/10, 0⟩ = 1 :=
  (c8_trailing_blink ⟨0, 1, [], 3/10, 0⟩).1 (by decide) rfl

/-- C9.  At the first processed face-frame the state is pristine — empty
history, cooldown 0, consecutive-below counter 0 — the required run
length is 1 and the dynamic threshold of that frame is the fixed constant
0.32; hence any first openness sample strictly below 0.32 is immediately
counted as a blink. -/
theorem c9_first_frame_blink :
    initEngState.ear_history = [] ∧ initEngState.blink_cooldown = 0 ∧
    initEngState.consecutive_below_threshold = 0 ∧ CONSECUTIVE_FRAMES = 1 ∧
    ∀ e : ℚ, e < EAR_THRESHOLD →
      dynamicThreshold (initEngState.ear_history ++ [e]) = EAR_THRESHOLD ∧
      (engineStep initEngState e).blink_count = 1 := by
  refine ⟨rfl, rfl, rfl, rfl, ?_⟩
  intro e he
  constructor
  · simp [dynamicThreshold, initEngState]
  · simp [engineStep, initEngState, dynamicThreshold, relativeThreshold, he,
      CONSECUTIVE_FRAMES]

/-- C9, witness: a first sample of 0.1 is flagged as a blink at once. -/
theorem c9_witness : (engineStep initEngState (1/10)).blink_count = 1 :=
  (c9_first_frame_blink.2.2.2.2 (1/10) (by norm_num [EAR_THRESHOLD])).2

/-- C10.  Per frame: starting from a cooldown in {0,…,3}, the cooldown
stays in {0,…,3}; the blink count never decreases; the cooldown is set to
3 exactly when the count changes, and otherwise it is only decremented
toward 0 (truncated).  Along any run from the initial state the cooldown
stays at most 3 and the cumulative count is monotone. -/
theorem c10_state_invariants :
    (∀ (s : EngState) (e : ℚ), s.blink_cooldown ≤ 3 →
      (engineStep s e).blink_cooldown ≤ 3 ∧
      s.blink_count ≤ (engineStep s e).blink_count ∧
      ((engineStep s e).blink_count ≠ s.blink_count → (engineStep s e).blink_cooldown = 3) ∧
      ((engineStep s e).blink_count = s.blink_count →
        (engineStep s e).blink_cooldown = s.blink_cooldown - 1)) ∧
    (∀ l : List ℚ, (List.foldl engineStep initEngState l).blink_cooldown ≤ 3) ∧
    (∀ (l : List ℚ) (s : EngState), s.blink_count ≤ (List.foldl engineStep s l).blink_count) := by
  refine ⟨?_, ?_, ?_⟩
  · intro s e h
    rcases engineStep_cases s e with ⟨h1, h2⟩ | ⟨h1, h2⟩ <;>
      exact ⟨by omega, by omega, fun hc => by omega, fun hc => by omega⟩
  · intro l
    exact foldl_cooldown_le l initEngState (by decide)
  · intro l s
    exact foldl_count_mono l s

/-- C10, witness: one frame from the initial state keeps the cooldown at
most 3 and does not decrease the count. -/
theorem c10_witness :
    (engineStep initEngState (1/2)).blink_cooldown ≤ 3 ∧
    initEngState.blink_count ≤ (engineStep initEngState (1/2)).blink_count :=
  ⟨(c10_state_invariants.1 initEngState (1/2) (by decide)).1,
   (c10_state_invariants.1 initEngState (1/2) (by decide)).2.1⟩

end BlinkCounter
